import Mathlib

/-!
Shallow embedding of the documentstack/sdk-go client (client source file,
`errors.go`, `types.go`) together with the Go standard-library behaviour the
client relies on (`strconv.ParseInt`/`strconv.Atoi` with discarded errors,
`strings.TrimSuffix`, `encoding/json.Unmarshal` into the error-response
struct, and the `regexp` engine run on the single pattern
`filename="?([^";\n]+)"?`).  HTTP dispatch is modelled by passing the
outcome of `httpClient.Do` (a response, or a transport failure together with
the context-error state observed afterwards) as an explicit argument, so the
client's control flow on top of it is pure.
-/

namespace DocumentStack

/-! ## Go `regexp` on the pattern filename="?([^";\n]+)"?

The client compiles this one pattern and calls `FindStringSubmatch`.
Go's (non-POSIX) engine uses leftmost-first, Perl-style semantics: the
earliest starting position wins, `"?` greedily prefers to consume a quote
but backtracks to the empty alternative, and `([^";\n]+)` captures the
maximal nonempty run of characters outside the class.  The pattern is
hand-compiled to a scanner over the character list. -/

/-- Membership in the character class `[^";\n]`. -/
def inClass (c : Char) : Bool :=
  c ≠ '"' && c ≠ ';' && c ≠ '\n'

/-- Maximal prefix run of characters inside the class (greedy `[^";\n]+`). -/
def takeClassRun : List Char → List Char
  | [] => []
  | c :: cs => if inClass c then c :: takeClassRun cs else []

/-- Attempt the suffix `"?([^";\n]+)"?` of the pattern on the text that
follows the literal `filename=`; returns the capture group on success.
The greedy optional quote is tried first and backtracks to the empty
alternative exactly as the backtracking search would. -/
def matchAfterEq : List Char → Option (List Char)
  | [] => none
  | c :: cs =>
    if c = '"' then
      match cs with
      | [] => none
      | d :: _ => if inClass d then some (takeClassRun cs) else none
    else
      if inClass c then some (takeClassRun (c :: cs)) else none

/-- The literal `filename=` that opens the pattern. -/
def filenameLit : List Char := ['f', 'i', 'l', 'e', 'n', 'a', 'm', 'e', '=']

/-- `FindStringSubmatch` for the pattern, returning the first capture group
of the leftmost-first match (or `none` when the pattern does not match):
starting positions are tried left to right, and at a position the whole
pattern must match for the scan to stop there. -/
def findStringSubmatch : List Char → Option (List Char)
  | [] => none
  | c :: cs =>
    if List.isPrefixOf filenameLit (c :: cs) then
      match matchAfterEq (List.drop 9 (c :: cs)) with
      | some cap => some cap
      | none => findStringSubmatch cs
    else
      findStringSubmatch cs

/-! ## Go `strconv.ParseInt(s, 10, 64)` and `strconv.Atoi`

The client discards the returned error (`v, _ := strconv.ParseInt(...)`), so
what matters is the value Go returns in every case: `0` on a syntax error,
the clamped extreme value on a range error, and the parsed value otherwise.
`strconv.Atoi` is `ParseInt(s, 10, 0)` converted to `int`, identical on a
64-bit platform. -/

/-- Decimal digit test. -/
def isDigit (c : Char) : Bool := '0' ≤ c && c ≤ '9'

/-- Accumulate the value of a digit string; `none` on any non-digit. -/
def digitsVal : List Char → Nat → Option Nat
  | [], acc => some acc
  | c :: cs, acc =>
    if isDigit c then digitsVal cs (acc * 10 + (c.toNat - 48)) else none

/-- Outcome of Go `strconv.ParseInt(s, 10, 64)`: the parsed value, a range
error carrying the clamped extreme, or a syntax error. -/
inductive ParseIntResult where
  | ok (v : Int)
  | rangeError (clamped : Int)
  | syntaxError
  deriving DecidableEq

/-- Go `strconv.ParseInt(s, 10, 64)` with its three outcome classes:
empty string, lone sign, or any non-digit gives a syntax error; a value
outside the signed 64-bit range gives a range error carrying the clamped
extreme of the appropriate sign. -/
def goParseInt64Res (s : String) : ParseIntResult :=
  match s.data with
  | [] => .syntaxError
  | c :: rest =>
    let signDigits : Bool × List Char :=
      if c = '-' then (true, rest)
      else if c = '+' then (false, rest)
      else (false, c :: rest)
    match signDigits.2 with
    | [] => .syntaxError
    | _ =>
      match digitsVal signDigits.2 0 with
      | none => .syntaxError
      | some n =>
        if signDigits.1 then
          if (n : Int) > 2 ^ 63 then .rangeError (-(2 ^ 63)) else .ok (-(n : Int))
        else
          if (n : Int) > 2 ^ 63 - 1 then .rangeError (2 ^ 63 - 1) else .ok (n : Int)

/-- The value Go `strconv.ParseInt(s, 10, 64)` returns when the caller
discards the error: `0` on syntax error, the clamped extreme on range
error. -/
def goParseInt64 (s : String) : Int :=
  match goParseInt64Res s with
  | .ok v => v
  | .rangeError v => v
  | .syntaxError => 0

/-- Go `strconv.Atoi` with the error discarded (`ParseInt(s, 10, 0)` on a
64-bit platform). -/
def goAtoi (s : String) : Int := goParseInt64 s

/-! ## Go `strings.TrimSuffix` -/

/-- Go `strings.TrimSuffix`: remove one trailing occurrence of the suffix,
if present. -/
def trimSuffix (s suffix : String) : String :=
  if List.isSuffixOf suffix.data s.data then
    String.mk (s.data.take (s.data.length - suffix.data.length))
  else s

/-! ## Go `encoding/json.Unmarshal` into `APIErrorResponse`

`parseErrorResponse` runs `json.Unmarshal(body, &errorBody)` where
`errorBody` has string fields tagged `error` and `message` and an
`interface{}` field tagged `details`, and falls back to a synthesized
object on *any* returned error (so a partially-filled struct on a type
mismatch is discarded and never observed).  The model parses the body as a
JSON value (one value, trailing whitespace only), then decodes the
top-level object: keys are matched case-insensitively, later duplicates
overwrite, unknown keys are ignored, `null` leaves a field unchanged
(`nil` for the `interface{}` field), a non-string value for `error` or
`message` is a type error, and a non-object top-level value other than
`null` is a type error.  Number tokens are validated against the JSON
grammar and kept as raw text (no claim inspects numeric values). -/

/-- JSON values as produced by the decoder. -/
inductive Json where
  | null
  | bool (b : Bool)
  | num (raw : String)
  | str (s : String)
  | arr (elems : List Json)
  | obj (members : List (String × Json))

/-- The opening brace character. -/
def obrace : Char := Char.ofNat 123

/-- The closing brace character. -/
def cbrace : Char := Char.ofNat 125

/-- JSON whitespace. -/
def isWs (c : Char) : Bool := c = ' ' || c = '\t' || c = '\n' || c = '\x0d'

/-- Skip leading JSON whitespace. -/
def skipWs : List Char → List Char
  | [] => []
  | c :: cs => if isWs c then skipWs cs else c :: cs

/-- Hexadecimal digit test. -/
def isHex (c : Char) : Bool :=
  isDigit c || ('a' ≤ c && c ≤ 'f') || ('A' ≤ c && c ≤ 'F')

/-- Value of a hexadecimal digit. -/
def hexVal (c : Char) : Nat :=
  if isDigit c then c.toNat - 48
  else if 'a' ≤ c then c.toNat - 87
  else c.toNat - 55

/-- Consume four hexadecimal digits of a `\u` escape. -/
def parseHex4 : List Char → Option (Nat × List Char)
  | a :: b :: c :: d :: rest =>
    if isHex a && isHex b && isHex c && isHex d then
      some ((((hexVal a * 16 + hexVal b) * 16 + hexVal c) * 16 + hexVal d), rest)
    else none
  | _ => none

/-- Parse the characters of a JSON string after the opening quote, up to and
including the closing quote; rejects unescaped control characters and
unknown escapes.  `fuel` bounds the recursion (one character is consumed
per step, so the input length suffices). -/
def parseStrChars : Nat → List Char → Option (List Char × List Char)
  | 0, _ => none
  | fuel + 1, s =>
    match s with
    | [] => none
    | '"' :: rest => some ([], rest)
    | '\\' :: e :: rest =>
      let cont : Char → List Char → Option (List Char × List Char) := fun c r =>
        match parseStrChars fuel r with
        | some (cs, r2) => some (c :: cs, r2)
        | none => none
      if e = '"' then cont '"' rest
      else if e = '\\' then cont '\\' rest
      else if e = '/' then cont '/' rest
      else if e = 'b' then cont (Char.ofNat 8) rest
      else if e = 'f' then cont (Char.ofNat 12) rest
      else if e = 'n' then cont '\n' rest
      else if e = 'r' then cont (Char.ofNat 13) rest
      else if e = 't' then cont '\t' rest
      else if e = 'u' then
        match parseHex4 rest with
        | some (n, r2) => cont (Char.ofNat n) r2
        | none => none
      else none
    | c :: rest =>
      if c.toNat < 32 then none
      else
        match parseStrChars fuel rest with
        | some (cs, r2) => some (c :: cs, r2)
        | none => none

/-- Maximal prefix of decimal digits. -/
def takeDigits : List Char → List Char × List Char
  | [] => ([], [])
  | c :: cs =>
    if isDigit c then
      let p := takeDigits cs
      (c :: p.1, p.2)
    else ([], c :: cs)

/-- Parse a JSON number token (grammar
`-? (0 | [1-9][0-9]*) ('.' [0-9]+)? ([eE] [+-]? [0-9]+)?`), returning its
raw text. -/
def parseNumberTok (s : List Char) : Option (List Char × List Char) :=
  let signPart : List Char × List Char :=
    match s with
    | '-' :: t => (['-'], t)
    | _ => ([], s)
  match signPart.2 with
  | [] => none
  | c :: cs =>
    let intPart : Option (List Char × List Char) :=
      if c = '0' then some (['0'], cs)
      else if isDigit c then
        let p := takeDigits cs
        some (c :: p.1, p.2)
      else none
    match intPart with
    | none => none
    | some (ip, r1) =>
      let fracPart : Option (List Char × List Char) :=
        match r1 with
        | '.' :: t =>
          let p := takeDigits t
          if p.1 = [] then none else some ('.' :: p.1, p.2)
        | _ => some ([], r1)
      match fracPart with
      | none => none
      | some (fp, r2) =>
        let expPart : Option (List Char × List Char) :=
          match r2 with
          | e :: t =>
            if e = 'e' || e = 'E' then
              let signExp : List Char × List Char :=
                match t with
                | '+' :: u => (['+'], u)
                | '-' :: u => (['-'], u)
                | _ => ([], t)
              let p := takeDigits signExp.2
              if p.1 = [] then none else some (e :: (signExp.1 ++ p.1), p.2)
            else some ([], e :: t)
          | [] => some ([], [])
        match expPart with
        | none => none
        | some (ep, r3) => some (signPart.1 ++ ip ++ fp ++ ep, r3)

mutual

/-- Parse one JSON value (leading whitespace allowed). -/
def parseValue : Nat → List Char → Option (Json × List Char)
  | 0, _ => none
  | fuel + 1, s =>
    match skipWs s with
    | [] => none
    | c :: rest =>
      if c = '"' then
        match parseStrChars (rest.length + 1) rest with
        | some (cs, r) => some (.str (String.mk cs), r)
        | none => none
      else if c = obrace then
        match skipWs rest with
        | [] => none
        | d :: r1 =>
          if d = cbrace then some (.obj [], r1)
          else
            match parseMemberList fuel (d :: r1) with
            | some (ms, r2) => some (.obj ms, r2)
            | none => none
      else if c = '[' then
        match skipWs rest with
        | [] => none
        | d :: r1 =>
          if d = ']' then some (.arr [], r1)
          else
            match parseElemList fuel (d :: r1) with
            | some (vs, r2) => some (.arr vs, r2)
            | none => none
      else if c = 't' then
        if List.isPrefixOf ['r', 'u', 'e'] rest then some (.bool true, rest.drop 3)
        else none
      else if c = 'f' then
        if List.isPrefixOf ['a', 'l', 's', 'e'] rest then some (.bool false, rest.drop 4)
        else none
      else if c = 'n' then
        if List.isPrefixOf ['u', 'l', 'l'] rest then some (.null, rest.drop 3)
        else none
      else
        match parseNumberTok (c :: rest) with
        | some (tok, r) => some (.num (String.mk tok), r)
        | none => none

/-- Parse a nonempty comma-separated member list of an object, up to and
including the closing brace. -/
def parseMemberList : Nat → List Char → Option (List (String × Json) × List Char)
  | 0, _ => none
  | fuel + 1, s =>
    match s with
    | '"' :: rest =>
      match parseStrChars (rest.length + 1) rest with
      | some (key, r1) =>
        match skipWs r1 with
        | ':' :: r2 =>
          match parseValue fuel r2 with
          | some (v, r3) =>
            (match skipWs r3 with
             | ',' :: r4 =>
               (match parseMemberList fuel (skipWs r4) with
                | some (ms, r5) => some ((String.mk key, v) :: ms, r5)
                | none => none)
             | d :: r4 =>
               if d = cbrace then some ([(String.mk key, v)], r4) else none
             | [] => none)
          | none => none
        | _ => none
      | none => none
    | _ => none

/-- Parse a nonempty comma-separated element list of an array, up to and
including the closing bracket. -/
def parseElemList : Nat → List Char → Option (List Json × List Char)
  | 0, _ => none
  | fuel + 1, s =>
    match parseValue fuel s with
    | some (v, r1) =>
      (match skipWs r1 with
       | ',' :: r2 =>
         (match parseElemList fuel r2 with
          | some (vs, r3) => some (v :: vs, r3)
          | none => none)
       | ']' :: r2 => some ([v], r2)
       | _ => none)
    | none => none

end

/-- Parse a complete JSON text: exactly one value, then only whitespace. -/
def parseJson (s : List Char) : Option Json :=
  match parseValue (s.length + 1) s with
  | some (v, rest) => if skipWs rest = [] then some v else none
  | none => none

/-- `types.go`: `APIErrorResponse` — the wire shape of an error body.
`Details` is an `interface{}` in Go; `none` models `nil`. -/
structure APIErrorResponse where
  Error : String
  Message : String
  Details : Option Json

/-- Case-insensitive key match, as `encoding/json` falls back to for struct
field tags. -/
def keyMatch (k field : String) : Bool :=
  k.data.map Char.toLower = field.data

/-- Decode one object member into the struct under Go's rules: unknown keys
ignored, `null` a no-op (and `nil` for the `interface{}` field), a
non-string value for a string field a type error. -/
def applyField (acc : APIErrorResponse) : String × Json → Option APIErrorResponse
  | (k, v) =>
    if keyMatch k "error" then
      match v with
      | .str s => some { acc with Error := s }
      | .null => some acc
      | _ => none
    else if keyMatch k "message" then
      match v with
      | .str s => some { acc with Message := s }
      | .null => some acc
      | _ => none
    else if keyMatch k "details" then
      match v with
      | .null => some { acc with Details := none }
      | w => some { acc with Details := some w }
    else some acc

/-- Go `json.Unmarshal(body, &errorBody)` observed through the client: the
decoded struct when no error is returned, `none` when any error is (invalid
JSON, trailing data, non-object top level, or a type mismatch on a field —
the client discards the partially-filled struct in every error case).  A
top-level `null` succeeds and leaves the struct at its zero value. -/
def unmarshalAPIErrorResponse (body : String) : Option APIErrorResponse :=
  match parseJson body.data with
  | some (.obj ms) => ms.foldlM applyField ⟨"", "", none⟩
  | some .null => some ⟨"", "", none⟩
  | some _ => none
  | none => none

/-! ## `errors.go` -/

/-- `DocumentStackError` — the base SDK error (returned by `New`). -/
structure DocumentStackError where
  Message : String
  deriving DecidableEq

/-- `APIError` — a non-200 API response mapped to an error value. -/
structure APIError where
  StatusCode : Int
  ErrorCode : String
  Message : String
  Details : Option Json

/-- `IsValidationError`: status 400. -/
def APIError.IsValidationError (e : APIError) : Bool :=
  decide (e.StatusCode = 400)

/-- `IsAuthenticationError`: status 401. -/
def APIError.IsAuthenticationError (e : APIError) : Bool :=
  decide (e.StatusCode = 401)

/-- `IsForbiddenError`: status 403. -/
def APIError.IsForbiddenError (e : APIError) : Bool :=
  decide (e.StatusCode = 403)

/-- `IsNotFoundError`: status 404. -/
def APIError.IsNotFoundError (e : APIError) : Bool :=
  decide (e.StatusCode = 404)

/-- `IsRateLimitError`: status 429. -/
def APIError.IsRateLimitError (e : APIError) : Bool :=
  decide (e.StatusCode = 429)

/-- `IsServerError`: status at least 500. -/
def APIError.IsServerError (e : APIError) : Bool :=
  decide (500 ≤ e.StatusCode)

/-- The `error` values the client can return from `Generate`, as a sum:
`RateLimitError` embeds an `APIError` and adds `RetryAfter`;
`TimeoutError` carries the configured timeout in seconds; `NetworkError`
carries a message and an optional underlying cause. -/
inductive SdkError where
  | api (e : APIError)
  | rateLimit (e : APIError) (retryAfter : Int)
  | timeout (seconds : Int)
  | network (message : String) (cause : Option String)

/-- `NewValidationError`. -/
def NewValidationError (message : String) (details : Option Json) : APIError :=
  { StatusCode := 400, ErrorCode := "Bad Request", Message := message, Details := details }

/-- `NewAuthenticationError`. -/
def NewAuthenticationError (message : String) : APIError :=
  { StatusCode := 401, ErrorCode := "Unauthorized", Message := message, Details := none }

/-- `NewForbiddenError`. -/
def NewForbiddenError (message : String) : APIError :=
  { StatusCode := 403, ErrorCode := "Forbidden", Message := message, Details := none }

/-- `NewNotFoundError`. -/
def NewNotFoundError (message : String) : APIError :=
  { StatusCode := 404, ErrorCode := "Not Found", Message := message, Details := none }

/-! ## `types.go`: configuration and payload types -/

/-- `Config`.  `Headers := none` models a `nil` map. -/
structure Config where
  APIKey : String
  BaseURL : String
  Timeout : Int
  Headers : Option (List (String × String))
  Debug : Bool

/-- `GenerateOptions`. -/
structure GenerateOptions where
  Filename : String

/-- `GenerateRequest` (`Data` is an open JSON mapping). -/
structure GenerateRequest where
  Data : List (String × Json)
  Options : Option GenerateOptions

/-- `GenerateResponse`.  `PDF` models the raw body bytes. -/
structure GenerateResponse where
  PDF : String
  Filename : String
  GenerationTimeMs : Int
  ContentLength : Int

/-! ## The client -/

/-- Default base URL. -/
def defaultBaseURL : String := "https://api.documentstack.dev"

/-- Default timeout in seconds. -/
def defaultTimeout : Int := 30

/-- `Client`: the resolved configuration plus the HTTP transport's timeout
(bound to the resolved timeout at construction). -/
structure Client where
  config : Config
  httpTimeoutSeconds : Int

/-- `New`: reject an empty API key; default the base URL when empty and
strip one trailing slash; default the timeout when not positive; replace a
`nil` headers map by an empty one; bind the transport to the resolved
timeout. -/
def New (config : Config) : Except DocumentStackError Client :=
  if config.APIKey = "" then
    .error { Message := "API key is required" }
  else
    let c1 := if config.BaseURL = "" then { config with BaseURL := defaultBaseURL } else config
    let c2 := { c1 with BaseURL := trimSuffix c1.BaseURL "/" }
    let c3 := if c2.Timeout ≤ 0 then { c2 with Timeout := defaultTimeout } else c2
    let c4 := match c3.Headers with
      | none => { c3 with Headers := some [] }
      | some _ => c3
    .ok { config := c4, httpTimeoutSeconds := c4.Timeout }

/-- An HTTP response as the client reads it: status code, status line,
header map, and the fully-read body. -/
structure HttpResponse where
  StatusCode : Int
  Status : String
  Header : List (String × String)
  Body : String

/-- `http.Header.Get`: the first value for the key, or `""` when absent
(keys are compared in their canonical form, which every key used by the
client already is). -/
def headerGet (h : List (String × String)) (key : String) : String :=
  match h with
  | [] => ""
  | (k, v) :: rest => if k = key then v else headerGet rest key

/-- The observable outcome of `httpClient.Do`: a response, or a transport
failure carrying the underlying cause. -/
inductive DispatchOutcome where
  | response (resp : HttpResponse)
  | transportFailure (cause : String)

/-- The value of `ctx.Err()` observed after a dispatch failure. -/
inductive CtxErr where
  | noErr
  | canceled
  | deadlineExceeded
  deriving DecidableEq

/-- `Client.parseErrorResponse`: decode the body as an `APIErrorResponse`,
falling back to `Error := "Unknown Error"`, `Message :=` the status line on
any decode error; build the `APIError` from the status code and the decoded
fields; on status 429 wrap it in a `RateLimitError` carrying the
`Retry-After` header parsed with `strconv.Atoi` (error discarded). -/
def Client.parseErrorResponse (_ : Client) (resp : HttpResponse) : SdkError :=
  let errorBody : APIErrorResponse :=
    match unmarshalAPIErrorResponse resp.Body with
    | some b => b
    | none => { Error := "Unknown Error", Message := resp.Status, Details := none }
  let apiErr : APIError :=
    { StatusCode := resp.StatusCode
      ErrorCode := errorBody.Error
      Message := errorBody.Message
      Details := errorBody.Details }
  if resp.StatusCode = 429 then
    .rateLimit apiErr (goAtoi (headerGet resp.Header "Retry-After"))
  else
    .api apiErr

/-- `Client.Generate`: reject an empty template ID locally with a
validation error (before anything request-related happens, so the result
does not depend on the dispatch outcome); on a transport failure return a
timeout error carrying the configured timeout when the context reports an
exceeded deadline and a network error wrapping the cause otherwise; on a
non-200 status delegate to `parseErrorResponse`; on 200 read the body and
extract the filename (pattern capture with default `"document.pdf"`), the
generation time, and the content length (header value, falling back to the
payload length when the parsed value is zero).

`request` is serialized and sent: for the modelled payload type
`json.Marshal` cannot fail, and request construction for the URL built here
cannot either, so those two error branches of the source are unreachable in
the model and the payload does not influence the observable result. -/
def Client.Generate (c : Client) (templateID : String) (_ : Option GenerateRequest)
    (outcome : DispatchOutcome) (ctxErr : CtxErr) : Except SdkError GenerateResponse :=
  if templateID = "" then
    .error (.api (NewValidationError "Template ID is required" none))
  else
    match outcome with
    | .transportFailure cause =>
      if ctxErr = .deadlineExceeded then
        .error (.timeout c.config.Timeout)
      else
        .error (.network "request failed" (some cause))
    | .response resp =>
      if resp.StatusCode ≠ 200 then
        .error (c.parseErrorResponse resp)
      else
        let pdf := resp.Body
        let contentDisposition := headerGet resp.Header "Content-Disposition"
        let generationTimeMs := goParseInt64 (headerGet resp.Header "X-Generation-Time-Ms")
        let contentLength := goParseInt64 (headerGet resp.Header "Content-Length")
        let filename : String :=
          match findStringSubmatch contentDisposition.data with
          | some cap => String.mk cap
          | none => "document.pdf"
        let contentLength2 := if contentLength = 0 then (pdf.length : Int) else contentLength
        .ok { PDF := pdf
              Filename := filename
              GenerationTimeMs := generationTimeMs
              ContentLength := contentLength2 }

/-! ## Shared helper definitions and lemmas -/

/-- The `APIError` payload carried by an SDK error, when it has one
(directly, or embedded in a `RateLimitError`). -/
def errorPayload : SdkError → Option APIError
  | .api e => some e
  | .rateLimit e _ => some e
  | .timeout _ => none
  | .network _ _ => none

/-- A concrete client used to instantiate universally quantified theorems. -/
def clDefault : Client :=
  { config := { APIKey := "k", BaseURL := defaultBaseURL, Timeout := 30,
                Headers := some [], Debug := false }
    httpTimeoutSeconds := 30 }

/-- Every character `takeClassRun` keeps is inside the class. -/
theorem takeClassRun_all (l : List Char) : (takeClassRun l).all inClass = true := by
  induction l with
  | nil => rfl
  | cons c cs ih =>
    by_cases h : inClass c
    · simp [takeClassRun, h, ih]
    · simp [takeClassRun, h]

/-- A successful suffix match yields a nonempty capture inside the class. -/
theorem matchAfterEq_sound (t cap : List Char) (h : matchAfterEq t = some cap) :
    cap ≠ [] ∧ cap.all inClass = true := by
  match t with
  | [] => exact absurd h (by simp [matchAfterEq])
  | c :: cs =>
    by_cases hq : c = '"'
    · match cs with
      | [] =>
        exact absurd h (by simp [matchAfterEq, hq])
      | d :: ds =>
        by_cases hd : inClass d
        · have hcap : cap = takeClassRun (d :: ds) := by
            simpa [matchAfterEq, hq, hd] using h.symm
          subst hcap
          refine ⟨by simp [takeClassRun, hd], takeClassRun_all _⟩
        · exact absurd h (by simp [matchAfterEq, hq, hd])
    · by_cases hc : inClass c
      · have hcap : cap = takeClassRun (c :: cs) := by
          simpa [matchAfterEq, hq, hc] using h.symm
        subst hcap
        refine ⟨by simp [takeClassRun, hc], takeClassRun_all _⟩
      · exact absurd h (by simp [matchAfterEq, hq, hc])

/-- A successful scan of the whole pattern yields a nonempty capture all of
whose characters lie in the class `[^";\n]`. -/
theorem findStringSubmatch_sound (l cap : List Char)
    (h : findStringSubmatch l = some cap) : cap ≠ [] ∧ cap.all inClass = true := by
  induction l with
  | nil => exact absurd h (by simp [findStringSubmatch])
  | cons c cs ih =>
    rw [findStringSubmatch] at h
    by_cases hp : List.isPrefixOf filenameLit (c :: cs)
    · rw [if_pos hp] at h
      cases hm : matchAfterEq (List.drop 9 (c :: cs)) with
      | some cap2 =>
        rw [hm] at h
        cases h
        exact matchAfterEq_sound _ _ hm
      | none =>
        rw [hm] at h
        exact ih h
    · rw [if_neg hp] at h
      exact ih h

/-- A syntax error in `ParseInt` yields the value `0` once the error is
discarded. -/
theorem goParseInt64_of_syntaxError (s : String)
    (h : goParseInt64Res s = .syntaxError) : goParseInt64 s = 0 := by
  unfold goParseInt64
  rw [h]

/-- `cond` over a decided proposition is an `if`. -/
theorem cond_decide_eq_ite (p : Prop) [Decidable p] (a b : Nat) :
    cond (decide p) a b = if p then a else b := by
  by_cases h : p <;> simp [h]

/-! ## Claim theorems -/

/-- C1: a 200 response with `Content-Disposition: attachment;
filename="invoice.pdf"` and body `B` produces filename `"invoice.pdf"`,
PDF `B`, and content length `len(B)`, whether the `Content-Length` header
is absent or the string `"0"`. -/
theorem generate_invoice_attachment (c : Client) (tid : String) (htid : tid ≠ "")
    (req : Option GenerateRequest) (B : String) (clh : List (String × String))
    (hcl : clh = [] ∨ clh = [("Content-Length", "0")]) :
    c.Generate tid req
      (.response { StatusCode := 200, Status := "200 OK",
                   Header := ("Content-Disposition",
                              "attachment; filename=\"invoice.pdf\"") :: clh,
                   Body := B })
      .noErr
    = .ok { PDF := B, Filename := "invoice.pdf", GenerationTimeMs := 0,
            ContentLength := (B.length : Int) } := by
  rcases hcl with h | h <;> subst h <;>
    simp only [Client.Generate, if_neg htid] <;> rfl

/-- C1 witness: concrete instantiation with body `"ab"` and the
`Content-Length` header absent. -/
theorem generate_invoice_attachment_witness :
    clDefault.Generate "t" none
      (.response { StatusCode := 200, Status := "200 OK",
                   Header := [("Content-Disposition",
                               "attachment; filename=\"invoice.pdf\"")],
                   Body := "ab" })
      .noErr
    = .ok { PDF := "ab", Filename := "invoice.pdf", GenerationTimeMs := 0,
            ContentLength := 2 } := by
  simpa using generate_invoice_attachment clDefault "t" (by decide) none "ab" []
    (Or.inl rfl)

/-- C2: on every 200 response the result's filename is the first capture
group of `filename="?([^";\n]+)"?` applied to the `Content-Disposition`
header — a nonempty run of characters outside `[^";\n]`'s complement class
when the pattern matches — and `"document.pdf"` when the header is absent
(empty) or the pattern does not match. -/
theorem generate_filename_regex (c : Client) (tid : String) (htid : tid ≠ "")
    (req : Option GenerateRequest) (resp : HttpResponse)
    (h200 : resp.StatusCode = 200) :
    ∃ res, c.Generate tid req (.response resp) .noErr = .ok res ∧
      res.Filename
        = (match findStringSubmatch (headerGet resp.Header "Content-Disposition").data with
           | some cap => String.mk cap
           | none => "document.pdf") ∧
      (headerGet resp.Header "Content-Disposition" = "" →
        res.Filename = "document.pdf") ∧
      (∀ cap, findStringSubmatch (headerGet resp.Header "Content-Disposition").data
          = some cap → cap ≠ [] ∧ cap.all inClass = true) := by
  refine ⟨{ PDF := resp.Body
            Filename :=
              match findStringSubmatch (headerGet resp.Header "Content-Disposition").data with
              | some cap => String.mk cap
              | none => "document.pdf"
            GenerationTimeMs := goParseInt64 (headerGet resp.Header "X-Generation-Time-Ms")
            ContentLength :=
              if goParseInt64 (headerGet resp.Header "Content-Length") = 0
              then (resp.Body.length : Int)
              else goParseInt64 (headerGet resp.Header "Content-Length") },
         ?_, rfl, ?_, ?_⟩
  · simp only [Client.Generate, if_neg htid, h200]
    rfl
  · intro h
    rw [h]
    rfl
  · intro cap hcap
    exact findStringSubmatch_sound _ _ hcap

/-- C2 witness: a 200 response with no `Content-Disposition` header gets
the default filename. -/
theorem generate_filename_regex_witness :
    ∃ res,
      clDefault.Generate "t" none
        (.response { StatusCode := 200, Status := "200 OK", Header := [],
                     Body := "x" }) .noErr = .ok res ∧
      res.Filename
        = (match findStringSubmatch
              (headerGet ([] : List (String × String)) "Content-Disposition").data with
           | some cap => String.mk cap
           | none => "document.pdf") ∧
      (headerGet ([] : List (String × String)) "Content-Disposition" = "" →
        res.Filename = "document.pdf") ∧
      (∀ cap,
        findStringSubmatch
            (headerGet ([] : List (String × String)) "Content-Disposition").data
          = some cap → cap ≠ [] ∧ cap.all inClass = true) :=
  generate_filename_regex clDefault "t" (by decide) none
    { StatusCode := 200, Status := "200 OK", Header := [], Body := "x" } rfl

/-- C3 counterexample: with `Content-Length: abc` the parse fails outright
(a syntax error, not a parsed zero), yet the result's content length is the
payload length 7 — the fallback did fire, contradicting the claim that a
parse failure does not trigger it. -/
theorem contentLength_parse_failure_cx :
    goParseInt64Res "abc" = .syntaxError ∧
    clDefault.Generate "t" none
      (.response { StatusCode := 200, Status := "200 OK",
                   Header := [("Content-Length", "abc")], Body := "1234567" })
      .noErr
    = .ok { PDF := "1234567", Filename := "document.pdf",
            GenerationTimeMs := 0, ContentLength := 7 } :=
  ⟨rfl, rfl⟩

/-- C3 amended: the fallback to the payload length fires exactly when the
integer obtained from the `Content-Length` header is zero, where the
discarded-error convention maps a syntax failure to zero as well — so an
absent or unparseable header also triggers the fallback, while any nonzero
parsed (or range-clamped) value, negative values included, suppresses it. -/
theorem generate_contentLength_fallback (c : Client) (tid : String)
    (htid : tid ≠ "") (req : Option GenerateRequest) (resp : HttpResponse)
    (h200 : resp.StatusCode = 200) :
    ∃ res, c.Generate tid req (.response resp) .noErr = .ok res ∧
      res.ContentLength
        = (if goParseInt64 (headerGet resp.Header "Content-Length") = 0
           then (resp.Body.length : Int)
           else goParseInt64 (headerGet resp.Header "Content-Length")) ∧
      (goParseInt64Res (headerGet resp.Header "Content-Length") = .syntaxError →
        res.ContentLength = (resp.Body.length : Int)) := by
  refine ⟨{ PDF := resp.Body
            Filename :=
              match findStringSubmatch (headerGet resp.Header "Content-Disposition").data with
              | some cap => String.mk cap
              | none => "document.pdf"
            GenerationTimeMs := goParseInt64 (headerGet resp.Header "X-Generation-Time-Ms")
            ContentLength :=
              if goParseInt64 (headerGet resp.Header "Content-Length") = 0
              then (resp.Body.length : Int)
              else goParseInt64 (headerGet resp.Header "Content-Length") },
         ?_, rfl, ?_⟩
  · simp only [Client.Generate, if_neg htid, h200]
    rfl
  · intro h
    simp [goParseInt64_of_syntaxError _ h]

/-- C3 amended witness: unparseable header, fallback to the payload
length. -/
theorem generate_contentLength_fallback_witness :
    ∃ res,
      clDefault.Generate "t" none
        (.response { StatusCode := 200, Status := "200 OK",
                     Header := [("Content-Length", "abc")], Body := "1234567" })
        .noErr = .ok res ∧
      res.ContentLength
        = (if goParseInt64 (headerGet [("Content-Length", "abc")] "Content-Length") = 0
           then ((7 : Nat) : Int)
           else goParseInt64 (headerGet [("Content-Length", "abc")] "Content-Length")) ∧
      (goParseInt64Res (headerGet [("Content-Length", "abc")] "Content-Length")
          = .syntaxError →
        res.ContentLength = ((7 : Nat) : Int)) := by
  simpa using generate_contentLength_fallback clDefault "t" (by decide) none
    { StatusCode := 200, Status := "200 OK",
      Header := [("Content-Length", "abc")], Body := "1234567" } rfl

/-- C4: on a dispatch failure, if the context reports an exceeded deadline
the call fails with a timeout error carrying the configured timeout; any
other transport failure yields a network error wrapping the cause. -/
theorem generate_dispatch_failure (c : Client) (tid : String) (htid : tid ≠ "")
    (req : Option GenerateRequest) (cause : String) (ctxErr : CtxErr) :
    c.Generate tid req (.transportFailure cause) ctxErr
    = if ctxErr = CtxErr.deadlineExceeded
      then .error (.timeout c.config.Timeout)
      else .error (.network "request failed" (some cause)) := by
  simp only [Client.Generate, if_neg htid]

/-- C4 witness: both failure classes at concrete inputs. -/
theorem generate_dispatch_failure_witness :
    clDefault.Generate "t" none (.transportFailure "boom") .deadlineExceeded
      = .error (.timeout 30) ∧
    clDefault.Generate "t" none (.transportFailure "boom") .noErr
      = .error (.network "request failed" (some "boom")) := by
  constructor
  · exact Eq.trans
      (generate_dispatch_failure clDefault "t" (by decide) none "boom" .deadlineExceeded)
      rfl
  · exact Eq.trans
      (generate_dispatch_failure clDefault "t" (by decide) none "boom" .noErr)
      rfl

/-- A concrete 429 response: `Retry-After: 5` and a JSON body with error
code `RateLimited` and message `slow down`. -/
def resp429 : HttpResponse :=
  { StatusCode := 429
    Status := "429 Too Many Requests"
    Header := [("Retry-After", "5")]
    Body := "\x7b\"error\":\"RateLimited\",\"message\":\"slow down\"\x7d" }

/-- C5: a 429 response is classified as the generic API error wrapped in a
rate-limit variant carrying the `Retry-After` header parsed as an integer
(0 when absent or unparseable, by the discarded-error convention); every
other non-200 status is classified as the generic API error unwrapped; and
the concrete 429 response with `Retry-After: 5` and body
`{"error":"RateLimited","message":"slow down"}` yields a rate-limit error
with status 429, code `RateLimited`, message `slow down`, retry-after 5. -/
theorem classify_rate_limit :
    (∀ (c : Client) (resp : HttpResponse), resp.StatusCode = 429 →
      ∃ e, c.parseErrorResponse resp
        = .rateLimit e (goAtoi (headerGet resp.Header "Retry-After")) ∧
          e.StatusCode = 429) ∧
    (∀ (c : Client) (resp : HttpResponse), resp.StatusCode ≠ 200 →
      resp.StatusCode ≠ 429 →
      ∃ e, c.parseErrorResponse resp = .api e ∧ e.StatusCode = resp.StatusCode) ∧
    clDefault.parseErrorResponse resp429
      = .rateLimit { StatusCode := 429, ErrorCode := "RateLimited",
                     Message := "slow down", Details := none } 5 := by
  refine ⟨?_, ?_, rfl⟩
  · intro c resp h
    simp only [Client.parseErrorResponse, h]
    exact ⟨_, rfl, rfl⟩
  · intro c resp _ h429
    simp only [Client.parseErrorResponse, if_neg h429]
    exact ⟨_, rfl, rfl⟩

/-- C5 witness: the general 429 clause applied to the concrete response,
and the general non-429 clause applied to a concrete 503 response. -/
theorem classify_rate_limit_witness :
    (∃ e, clDefault.parseErrorResponse resp429
      = .rateLimit e (goAtoi (headerGet resp429.Header "Retry-After")) ∧
        e.StatusCode = 429) ∧
    (∃ e, clDefault.parseErrorResponse
        { StatusCode := 503, Status := "503 Service Unavailable",
          Header := [], Body := "" } = .api e ∧ e.StatusCode = 503) :=
  ⟨(classify_rate_limit.1 clDefault resp429 rfl),
   (classify_rate_limit.2.1 clDefault
      { StatusCode := 503, Status := "503 Service Unavailable",
        Header := [], Body := "" } (by decide) (by decide))⟩

/-- C6: when the body of a non-200 response does not decode, the classifier
still returns an API-error-carrying value (never a secondary failure) whose
code is the fixed fallback `"Unknown Error"` and whose message is the HTTP
status line. -/
theorem classify_invalid_json_fallback (c : Client) (resp : HttpResponse)
    (_h200 : resp.StatusCode ≠ 200)
    (hbad : unmarshalAPIErrorResponse resp.Body = none) :
    ∃ e, errorPayload (c.parseErrorResponse resp) = some e ∧
      e.ErrorCode = "Unknown Error" ∧ e.Message = resp.Status := by
  refine ⟨{ StatusCode := resp.StatusCode, ErrorCode := "Unknown Error",
            Message := resp.Status, Details := none }, ?_, rfl, rfl⟩
  by_cases h429 : resp.StatusCode = 429
  · simp only [Client.parseErrorResponse, hbad, h429]
    rfl
  · simp only [Client.parseErrorResponse, hbad, if_neg h429]
    rfl

/-- C6 witness: a 500 response whose body is not JSON. -/
theorem classify_invalid_json_fallback_witness :
    ∃ e, errorPayload (clDefault.parseErrorResponse
        { StatusCode := 500, Status := "500 Internal Server Error",
          Header := [], Body := "not json" }) = some e ∧
      e.ErrorCode = "Unknown Error" ∧ e.Message = "500 Internal Server Error" :=
  classify_invalid_json_fallback clDefault
    { StatusCode := 500, Status := "500 Internal Server Error",
      Header := [], Body := "not json" } (by decide) rfl

/-- C7: with an empty template ID, `Generate` returns the validation error
whatever the dispatch outcome and context state would have been — the check
is local and no network request is issued. -/
theorem generate_empty_template (c : Client) (req : Option GenerateRequest)
    (outcome : DispatchOutcome) (ctxErr : CtxErr) :
    c.Generate "" req outcome ctxErr
      = .error (.api (NewValidationError "Template ID is required" none)) := by
  rfl

/-- A configuration with a non-empty key and a negative timeout. -/
def cfgC8 : Config :=
  { APIKey := "k", BaseURL := "", Timeout := -1, Headers := none, Debug := false }

/-- C8 counterexample: with `Timeout := -1` — a value that is not zero —
construction still applies the default timeout 30, so the default is not
applied "exactly when the field is zero". -/
theorem new_timeout_default_cx :
    cfgC8.Timeout ≠ 0 ∧
    New cfgC8 = .ok { config := { APIKey := "k", BaseURL := defaultBaseURL,
                                  Timeout := 30, Headers := some [],
                                  Debug := false },
                      httpTimeoutSeconds := 30 } :=
  ⟨by decide, rfl⟩

/-- C8 amended: an empty API key always fails with the configuration
error; a non-empty key always succeeds, the base-URL default is applied
exactly when the field is empty (then one trailing slash is stripped), and
the timeout default is applied exactly when the field is zero or negative. -/
theorem new_defaults (config : Config) :
    (config.APIKey = "" → New config = .error { Message := "API key is required" }) ∧
    (config.APIKey ≠ "" → ∃ cl, New config = .ok cl ∧
      cl.config.APIKey = config.APIKey ∧
      cl.config.BaseURL
        = trimSuffix (if config.BaseURL = "" then defaultBaseURL else config.BaseURL) "/" ∧
      cl.config.Timeout
        = (if config.Timeout ≤ 0 then defaultTimeout else config.Timeout) ∧
      cl.httpTimeoutSeconds = cl.config.Timeout) := by
  constructor
  · intro h
    simp only [New, if_pos h]
  · intro h
    simp only [New, if_neg h]
    by_cases hb : config.BaseURL = "" <;>
      by_cases ht : config.Timeout ≤ 0 <;>
        cases hh : config.Headers <;>
          simp [hb, ht, hh]

/-- C8 amended witness: concrete configuration with a non-empty key, a
trailing-slash base URL, and timeout zero. -/
theorem new_defaults_witness :
    (∃ cl, New { APIKey := "k", BaseURL := "https://x/", Timeout := 0,
                 Headers := none, Debug := false } = .ok cl ∧
      cl.config.APIKey = "k" ∧
      cl.config.BaseURL = trimSuffix (if ("https://x/" : String) = "" then defaultBaseURL
                                      else "https://x/") "/" ∧
      cl.config.Timeout = (if (0 : Int) ≤ 0 then defaultTimeout else 0) ∧
      cl.httpTimeoutSeconds = cl.config.Timeout) :=
  (new_defaults { APIKey := "k", BaseURL := "https://x/", Timeout := 0,
                  Headers := none, Debug := false }).2 (by decide)

/-- C9: the error classified from a 404 response satisfies the not-found
predicate and none of the other five category predicates; and on any single
`APIError` at most one of the six category predicates holds. -/
theorem notfound_predicates :
    (∀ (c : Client) (resp : HttpResponse), resp.StatusCode = 404 →
      ∃ e, c.parseErrorResponse resp = .api e ∧
        e.IsNotFoundError = true ∧ e.IsValidationError = false ∧
        e.IsAuthenticationError = false ∧ e.IsForbiddenError = false ∧
        e.IsRateLimitError = false ∧ e.IsServerError = false) ∧
    (∀ e : APIError,
      cond e.IsValidationError 1 0 + cond e.IsAuthenticationError 1 0 +
      cond e.IsForbiddenError 1 0 + cond e.IsNotFoundError 1 0 +
      cond e.IsRateLimitError 1 0 + cond e.IsServerError 1 0 ≤ 1) := by
  constructor
  · intro c resp h
    simp only [Client.parseErrorResponse, h]
    exact ⟨_, rfl, rfl, rfl, rfl, rfl, rfl, rfl⟩
  · intro e
    simp only [APIError.IsValidationError, APIError.IsAuthenticationError,
      APIError.IsForbiddenError, APIError.IsNotFoundError,
      APIError.IsRateLimitError, APIError.IsServerError, cond_decide_eq_ite]
    split_ifs <;> omega

/-- C9 witness: the 404 clause applied to a concrete response. -/
theorem notfound_predicates_witness :
    ∃ e, clDefault.parseErrorResponse
        { StatusCode := 404, Status := "404 Not Found", Header := [],
          Body := "" } = .api e ∧
      e.IsNotFoundError = true ∧ e.IsValidationError = false ∧
      e.IsAuthenticationError = false ∧ e.IsForbiddenError = false ∧
      e.IsRateLimitError = false ∧ e.IsServerError = false :=
  notfound_predicates.1 clDefault
    { StatusCode := 404, Status := "404 Not Found", Header := [], Body := "" } rfl

/-- A 400 response whose JSON body reproduces the fields of the local
validation error. -/
def resp400Echo : HttpResponse :=
  { StatusCode := 400
    Status := "400 Bad Request"
    Header := []
    Body := "\x7b\"error\":\"Bad Request\",\"message\":\"Template ID is required\"\x7d" }

/-- C10: the validation error for an empty template ID is an `APIError`
with status 400, code `"Bad Request"`, and no details; its validation
predicate holds; and a real 400 HTTP response with a matching body is
classified to the very same error value, so the two are indistinguishable
by type or fields. -/
theorem empty_template_error_shape (c : Client) (req : Option GenerateRequest)
    (outcome : DispatchOutcome) (ctxErr : CtxErr) :
    ∃ e : APIError,
      c.Generate "" req outcome ctxErr = .error (.api e) ∧
      e.StatusCode = 400 ∧ e.ErrorCode = "Bad Request" ∧
      e.Message = "Template ID is required" ∧ e.Details = none ∧
      e.IsValidationError = true ∧
      c.parseErrorResponse resp400Echo = .api e :=
  ⟨NewValidationError "Template ID is required" none,
   rfl, rfl, rfl, rfl, rfl, rfl, rfl⟩

end DocumentStack
